import Mathlib

/-!
Verification development for the Echo.ai orchestrator
(`src/echo-orchestrator.ts` and the provider servers
`src/gmail-server.ts`, `src/search-server.ts`).

JavaScript strings are embedded as `List Char` where character-level
behavior matters (the CLI sentinel check) and as `String` elsewhere;
JS builtins (`JSON.parse`, `JSON.stringify`) are abstracted as explicit
function parameters.  Stateful code (the MCP clients, the spawned server
processes, the chat loop) is embedded as explicit state passing.
Definitions whose doc comment starts with `Modelled from the spec:`
embed behavior the specification describes but the repository does not
contain; everything else is translated from the TypeScript source.
-/

namespace Echo

/-- JavaScript strings, embedded as lists of characters. -/
abbrev JStr := List Char

/-- ASCII whitespace stripped by `String.prototype.trim` (the JS builtin
strips Unicode whitespace; the inputs of interest here are ASCII, so the
model covers the ASCII range). -/
def isJsWhitespace (c : Char) : Bool :=
  c = ' ' || c = '\t' || c = '\n' || c = '\r' || c = '\x0b' || c = '\x0c'

/-- Embedding of `String.prototype.trim`: drop leading and trailing
whitespace. -/
def jsTrim (s : JStr) : JStr :=
  ((s.dropWhile isJsWhitespace).reverse.dropWhile isJsWhitespace).reverse

/-- Embedding of `String.prototype.toLowerCase` (Basic-Latin range, which
covers the sentinel words `quit` / `exit`): lower-case each character. -/
def jsToLower (s : JStr) : JStr :=
  s.map Char.toLower

/-- Embedding of `EchoOrchestrator.isExitCommand` (`src/echo-orchestrator.ts` 386-389):
`const normalized = input.toLowerCase().trim();
 return normalized === "quit" || normalized === "exit";` -/
def isExitCommand (input : JStr) : Bool :=
  let normalized := jsTrim (jsToLower input)
  normalized == "quit".toList || normalized == "exit".toList

/-- Embedding of `EchoOrchestrator.startChatLoop` (`src/echo-orchestrator.ts` 334-362),
with the readline input embedded as the list of lines the user will type.
Returns the queries handed to `processQuery`, in order, and whether the
loop was terminated by a sentinel line (rather than by input exhaustion). -/
def startChatLoop : List JStr → List JStr × Bool
  | [] => ([], false)
  | q :: rest =>
    if isExitCommand q then ([], true)
    else if jsTrim q == [] then startChatLoop rest
    else
      let r := startChatLoop rest
      (q :: r.1, r.2)

/-- Declared argument schema of a provider tool, as the provider servers
declare them (`src/gmail-server.ts` 109-207, `src/search-server.ts` 26-31):
an object schema given by typed properties and a list of required
property names. -/
structure InputSchema where
  properties : List (String × String)
  required : List String
deriving DecidableEq

/-- A tool as returned by a provider's `listTools()` response. -/
structure RawTool where
  name : String
  description : Option String
  inputSchema : InputSchema
deriving DecidableEq

/-- The `source` tag of `AggregatedTool` (`src/echo-orchestrator.ts` 53). -/
inductive Source
  | filesystem
  | gmail
  | search
deriving DecidableEq

/-- Embedding of `AggregatedTool` (`src/echo-orchestrator.ts` 49-54): a provider tool
together with the source tag identifying the owning provider. -/
structure AggregatedTool where
  name : String
  description : Option String
  inputSchema : InputSchema
  source : Source
deriving DecidableEq

/-- The `map` steps of `aggregateTools` (`src/echo-orchestrator.ts`
201-212): spread each listed tool and attach the source tag. -/
def tagTools (ts : List RawTool) (src : Source) : List AggregatedTool :=
  ts.map fun t =>
    { name := t.name, description := t.description,
      inputSchema := t.inputSchema, source := src }

/-- Embedding of `EchoOrchestrator.aggregateTools` (`src/echo-orchestrator.ts` 192-215):
`this.tools = [...fsTools, ...gmailTools, ...searchTools]` where each part
is the provider's catalog tagged with its source.  No duplicate check of
any kind is performed. -/
def aggregateTools (fsTools gmailTools searchTools : List RawTool) :
    List AggregatedTool :=
  tagTools fsTools Source.filesystem ++ tagTools gmailTools Source.gmail ++
    tagTools searchTools Source.search

/-- JSON values, for the `any`-typed tool arguments. -/
inductive Json
  | str (s : String)
  | num (n : Int)
  | jbool (b : Bool)
  | null
  | arr (elems : List Json)
  | obj (fields : List (String × Json))

/-- Call log of one MCP `Client`: the `callTool` requests dispatched on
that connection, in order. -/
structure ClientLog where
  calls : List (String × Json)

/-- The three MCP clients of the orchestrator (`fsClient`, `gmailClient`,
`searchClient`, `src/echo-orchestrator.ts` 86-88), observed through their
call logs. -/
structure Clients where
  fsClient : ClientLog
  gmailClient : ClientLog
  searchClient : ClientLog

/-- Clients with no calls dispatched yet. -/
def emptyClients : Clients := ⟨⟨[]⟩, ⟨[]⟩, ⟨[]⟩⟩

/-- The `switch (toolDef.source)` client routing of the bridge
(`src/echo-orchestrator.ts` 245-256). -/
def clientFor (c : Clients) : Source → ClientLog
  | Source.filesystem => c.fsClient
  | Source.gmail => c.gmailClient
  | Source.search => c.searchClient

/-- One `client.callTool({ name, arguments })` dispatch
(`src/echo-orchestrator.ts` 260-263), observed as an append on the routed
client's call log. -/
def recordCall (c : Clients) (src : Source) (name : String) (args : Json) :
    Clients :=
  match src with
  | Source.filesystem => { c with fsClient := ⟨c.fsClient.calls ++ [(name, args)]⟩ }
  | Source.gmail => { c with gmailClient := ⟨c.gmailClient.calls ++ [(name, args)]⟩ }
  | Source.search => { c with searchClient := ⟨c.searchClient.calls ++ [(name, args)]⟩ }

/-- One typed part of a provider's `callTool` response content. -/
structure ContentPart where
  type : String
  text : String

/-- A provider's `callTool` response:
`{content: sequence of typed parts, isError: bool}`. -/
structure CallToolResult where
  content : List ContentPart
  isError : Bool

/-- Embedding of `EchoOrchestrator.extractResultText` (`src/echo-orchestrator.ts`
416-418): `(result.content as any)?.[0]?.text || JSON.stringify(result)`;
the `JSON.stringify` builtin is abstracted as `stringify`, and a missing
or empty (falsy) text falls through to it. -/
def extractResultText (stringify : CallToolResult → String)
    (result : CallToolResult) : String :=
  match result.content.head? with
  | some part => if part.text == "" then stringify result else part.text
  | none => stringify result

/-- Input normalization of the `DynamicTool` bridge
(`src/echo-orchestrator.ts` 230-242): a string input is `JSON.parse`d if
possible and otherwise wrapped as `{ query: input }`; an object input is
used as is.  The `JSON.parse` builtin is abstracted as `parse`, returning
`none` where the builtin throws. -/
def normalizeInput (parse : String → Option Json) : String ⊕ Json → Json
  | Sum.inl s =>
    match parse s with
    | some j => j
    | none => Json.obj [("query", Json.str s)]
  | Sum.inr j => j

/-- The `func` of the `DynamicTool` bridge built in `initializeAgent`
(`src/echo-orchestrator.ts` 228-273): normalize the input, route to the
client selected by `toolDef.source`, dispatch `callTool`, and either
return the extracted result text or catch a thrown error and return
`Error executing tool <name>: <message>` as the tool's output string.
`response` is the behavior of the underlying `client.callTool` call for
this dispatch (`.ok` a result, `.error` a thrown message); the dispatch
itself happens unconditionally before the outcome is known. -/
def dynamicToolFunc (stringify : CallToolResult → String)
    (parse : String → Option Json) (toolDef : AggregatedTool)
    (input : String ⊕ Json) (clients : Clients)
    (response : Except String CallToolResult) : Clients × String :=
  let args := normalizeInput parse input
  let clients₂ := recordCall clients toolDef.source toolDef.name args
  match response with
  | Except.ok result => (clients₂, extractResultText stringify result)
  | Except.error msg =>
    (clients₂, "Error executing tool " ++ toolDef.name ++ ": " ++ msg)

/-- Name-based tool resolution over the aggregated catalog: the LangGraph
tool node selects the `DynamicTool` whose name matches the planner's tool
call; the bridge list is built from `this.tools` in order
(`src/echo-orchestrator.ts` 224-275). -/
def lookupTool (tools : List AggregatedTool) (n : String) :
    Option AggregatedTool :=
  tools.find? (fun t => t.name == n)

/-- Whether a provider catalog declares a tool of the given name. -/
def containsName (ts : List RawTool) (n : String) : Bool :=
  ts.any (fun t => t.name == n)

/-- A tool call proposed by the planner: name and raw argument payload. -/
structure ToolCall where
  name : String
  arguments : String

/-- Conversation history entries of the agent loop. -/
inductive Msg
  | user (text : String)
  | assistant (text : String)
  | assistantCalls (calls : List ToolCall)
  | toolMsg (name : String) (text : String)

/-- Planner output: a final text answer, or proposed tool calls. -/
inductive PlannerOut
  | final (text : String)
  | propose (calls : List ToolCall)

/-- Outcome of one turn of the agent loop. -/
inductive AgentOutcome
  | final (history : List Msg) (text : String)
  | cycleLimitExceeded (history : List Msg)

/-- Tool-role history entries produced by executing a plan in order. -/
def execCalls (exec : ToolCall → String) (calls : List ToolCall) : List Msg :=
  calls.map fun c => Msg.toolMsg c.name (exec c)

/-- Modelled from the spec: the plan-execute-replan loop (§4.6) run by
`this.agent.invoke` in `processQuery` — the loop body lives in the
LangGraph library (`createReactAgent`), outside this repository; the
repository configures only the cycle bound (`recursionLimit: 20`,
`src/echo-orchestrator.ts` 316).  Fuel is the configured bound; when it
runs out before a final answer the turn ends with `cycleLimitExceeded`
carrying the history accumulated so far.  The second component is the
trace of histories passed to the planner, one entry per planning cycle. -/
def runAgentLoop (planner : List Msg → PlannerOut) (exec : ToolCall → String) :
    Nat → List Msg → AgentOutcome × List (List Msg)
  | 0, h => (AgentOutcome.cycleLimitExceeded h, [])
  | n+1, h =>
    match planner h with
    | PlannerOut.final t => (AgentOutcome.final (h ++ [Msg.assistant t]) t, [h])
    | PlannerOut.propose calls =>
      let h₂ := h ++ [Msg.assistantCalls calls] ++ execCalls exec calls
      let r := runAgentLoop planner exec n h₂
      (r.1, h :: r.2)

/-- The configured cycle bound: `recursionLimit: 20`
(`src/echo-orchestrator.ts` 316). -/
def recursionLimit : Nat := 20

/-- Observable connection state of the orchestrator: which server
processes have been spawned and which clients are connected
(`src/echo-orchestrator.ts` 83-91), plus the aggregated catalog. -/
structure OrchState where
  fsProc : Bool
  gmailProc : Bool
  searchProc : Bool
  fsConn : Bool
  gmailConn : Bool
  searchConn : Bool
  tools : List AggregatedTool
  isConnected : Bool
deriving DecidableEq

/-- The constructed orchestrator: nothing spawned, nothing connected. -/
def initialOrchState : OrchState :=
  ⟨false, false, false, false, false, false, [], false⟩

/-- Embedding of `EchoOrchestrator.disconnect` (`src/echo-orchestrator.ts` 394-411):
closes the three clients (best-effort, `Promise.allSettled`), kills the
three server processes, clears `isConnected`; `this.tools` is left as is. -/
def disconnect (s : OrchState) : OrchState :=
  { s with fsProc := false, gmailProc := false, searchProc := false,
           fsConn := false, gmailConn := false, searchConn := false,
           isConnected := false }

/-- Environment of one `connect` run: whether each service connection and
the `listTools` aggregation succeed, and the catalogs the providers
report. -/
structure ConnectEnv where
  fsOk : Bool
  gmailOk : Bool
  searchOk : Bool
  listToolsOk : Bool
  fsTools : List RawTool
  gmailTools : List RawTool
  searchTools : List RawTool

/-- Which step of `connect` failed. -/
inductive ConnectStep
  | fs
  | gmail
  | search
  | listTools
deriving DecidableEq

/-- Embedding of `EchoOrchestrator.connect` (`src/echo-orchestrator.ts` 120-139) with
the three `connectXService` helpers (144-187): each helper spawns the
server process and then connects the client; on any failure the `catch`
block calls `this.disconnect()` and rethrows.  Returns the resulting
state and the failed step, if any. -/
def connect (env : ConnectEnv) (s : OrchState) : OrchState × Option ConnectStep :=
  let s₁ := { s with fsProc := true }
  if !env.fsOk then (disconnect s₁, some ConnectStep.fs)
  else
    let s₂ := { s₁ with fsConn := true, gmailProc := true }
    if !env.gmailOk then (disconnect s₂, some ConnectStep.gmail)
    else
      let s₃ := { s₂ with gmailConn := true, searchProc := true }
      if !env.searchOk then (disconnect s₃, some ConnectStep.search)
      else
        let s₄ := { s₃ with searchConn := true }
        if !env.listToolsOk then (disconnect s₄, some ConnectStep.listTools)
        else
          ({ s₄ with
              tools := aggregateTools env.fsTools env.gmailTools env.searchTools,
              isConnected := true }, none)

/-- No server process running, no client connected, not ready. -/
def nothingRunning (s : OrchState) : Bool :=
  !s.fsProc && !s.gmailProc && !s.searchProc &&
    !s.fsConn && !s.gmailConn && !s.searchConn && !s.isConnected

/-- Embedding of `main` (`src/echo-orchestrator.ts` 497-518): run the chat loop, then
`disconnect` in the `finally` block. -/
def sessionMain (lines : List JStr) (s : OrchState) :
    List JStr × Bool × OrchState :=
  let r := startChatLoop lines
  (r.1, r.2, disconnect s)

/-- Workflow classes of the policy the spec describes. -/
inductive ToolClass
  | plain
  | validating
  | gated
deriving DecidableEq

/-- Modelled from the spec: `ToolClass` assignment "is configuration, not
inferred" (§3), and no such configuration exists in the repository; the
spec's email workflow — mirrored by the orchestrator's prompt text
(`getSystemPrompt`, `src/echo-orchestrator.ts` 445-451) — designates
`quality_check` as the validating tool that must pass before
`create_draft` may run, so those two are classed accordingly and every
other tool is `plain`. -/
def toolClassOf (name : String) : ToolClass :=
  if name == "quality_check" then ToolClass.validating
  else if name == "create_draft" then ToolClass.gated
  else ToolClass.plain

/-- The JSON-Schema primitive type of a value. -/
def fieldType : Json → String
  | Json.str _ => "string"
  | Json.num _ => "number"
  | Json.jbool _ => "boolean"
  | Json.null => "null"
  | Json.arr _ => "array"
  | Json.obj _ => "object"

/-- First value bound to a key in a JSON object's field list. -/
def lookupField : List (String × Json) → String → Option Json
  | [], _ => none
  | (k, v) :: rest, target =>
    if k == target then some v else lookupField rest target

/-- Modelled from the spec: "the tool's arguments fail schema validation
against its descriptor" (§4.4 step 2) — the repository contains no
validator, so the acceptance relation for the provider-declared object
schemas (`type: "object"`, typed `properties`, `required` list) is
modelled here: the arguments must be an object, every required property
must be present, and every declared property that is present must have
the declared primitive type. -/
def schemaAccepts (schema : InputSchema) (args : Json) : Bool :=
  match args with
  | Json.obj fields =>
    schema.required.all (fun r => (lookupField fields r).isSome) &&
      schema.properties.all (fun p =>
        match lookupField fields p.1 with
        | none => true
        | some v => fieldType v == p.2)
  | _ => false

/-- Modelled from the spec: `build(providerHandles)` of the Tool Registry
(§4.1) "concatenates catalogs; fails with `DuplicateToolError(name)` if
any name collides across providers" — stated here only to compare with
the repository's `aggregateTools`, which performs no such check.  Returns
the first name colliding across two providers, or the concatenated
catalog. -/
def specBuild (fsTools gmailTools searchTools : List RawTool) :
    Except String (List AggregatedTool) :=
  match (fsTools.map (fun t => t.name)).find? (fun n =>
      containsName gmailTools n || containsName searchTools n) with
  | some n => Except.error n
  | none =>
    match (gmailTools.map (fun t => t.name)).find? (fun n =>
        containsName searchTools n) with
    | some n => Except.error n
    | none => Except.ok (aggregateTools fsTools gmailTools searchTools)

/-- Tool `list_emails` as declared by the Gmail server
(`src/gmail-server.ts` 112-128). -/
def listEmailsTool : RawTool :=
  { name := "list_emails",
    description := some ("Fetches a list of emails, with powerful filtering options."),
    inputSchema := { properties := [("query", "string"), ("max_results", "number")],
                     required := [] } }

/-- Tool `read_email` as declared by the Gmail server
(`src/gmail-server.ts` 129-142). -/
def readEmailTool : RawTool :=
  { name := "read_email",
    description := some ("Reads the full content of a specific email by its ID."),
    inputSchema := { properties := [("message_id", "string")],
                     required := ["message_id"] } }

/-- Tool `create_draft` as declared by the Gmail server
(`src/gmail-server.ts` 143-168). -/
def createDraftTool : RawTool :=
  { name := "create_draft",
    description := some ("Creates a new email draft. Does not send it."),
    inputSchema := { properties := [("to", "string"), ("subject", "string"),
                                    ("body", "string"), ("in_reply_to", "string")],
                     required := ["to", "subject", "body"] } }

/-- Tool `send_email` as declared by the Gmail server
(`src/gmail-server.ts` 169-190). -/
def sendEmailTool : RawTool :=
  { name := "send_email",
    description := some ("Directly sends an email."),
    inputSchema := { properties := [("to", "string"), ("subject", "string"),
                                    ("body", "string")],
                     required := ["to", "subject", "body"] } }

/-- Tool `summarize_thread` as declared by the Gmail server
(`src/gmail-server.ts` 191-204). -/
def summarizeThreadTool : RawTool :=
  { name := "summarize_thread",
    description := some ("Reads all messages in an email thread and generates an AI summary using server-side LLM."),
    inputSchema := { properties := [("thread_id", "string")],
                     required := ["thread_id"] } }

/-- The Gmail server's catalog (`src/gmail-server.ts` 109-207). -/
def gmailCatalog : List RawTool :=
  [listEmailsTool, readEmailTool, createDraftTool, sendEmailTool,
   summarizeThreadTool]

/-- Tool `tavily_search_results_json` as declared by the search server
(`src/search-server.ts` 26-31). -/
def tavilySearchTool : RawTool :=
  { name := "tavily_search_results_json",
    description := some ("A search engine optimized for comprehensive, accurate, and trusted results."),
    inputSchema := { properties := [("query", "string")],
                     required := ["query"] } }

/-- The search server's catalog (`src/search-server.ts`). -/
def searchCatalog : List RawTool := [tavilySearchTool]

/-- Tool `create_draft` as it appears in `this.tools` after aggregation. -/
def aggCreateDraftTool : AggregatedTool :=
  { name := createDraftTool.name, description := createDraftTool.description,
    inputSchema := createDraftTool.inputSchema, source := Source.gmail }

/-- Tool `send_email` as it appears in `this.tools` after aggregation. -/
def aggSendEmailTool : AggregatedTool :=
  { name := sendEmailTool.name, description := sendEmailTool.description,
    inputSchema := sendEmailTool.inputSchema, source := Source.gmail }

/-- Environment stub: a `JSON.parse` that always throws. -/
def parseStub : String → Option Json := fun _ => none

/-- Environment stub: a `JSON.parse` that parses exactly the input
`"42"`. -/
def parseW : String → Option Json :=
  fun s => if s == "42" then some (Json.num 42) else none

/-- Environment stub for `JSON.stringify`. -/
def stringifyStub : CallToolResult → String := fun _ => "[object Object]"

/-- A successful `create_draft` provider response. -/
def draftOkResult : CallToolResult :=
  { content := [{ type := "text",
                  text := "Draft created successfully with ID: draft-1" }],
    isError := false }

/-- A successful `send_email` provider response. -/
def sendOkResult : CallToolResult :=
  { content := [{ type := "text",
                  text := "Email sent successfully. Message ID: msg-1" }],
    isError := false }

/-- Arguments of a well-formed `create_draft` invocation. -/
def draftArgs : Json :=
  Json.obj [("to", Json.str ("team@example.com")), ("subject", Json.str ("Update")),
            ("body", Json.str ("Hello team"))]

/-- A concrete planner tool call used in closed instantiations. -/
def sendCall : ToolCall := { name := "send_email", arguments := "payload" }

/-- A concrete search tool call used in closed instantiations. -/
def searchCall : ToolCall :=
  { name := "tavily_search_results_json", arguments := "latest news" }

/-- A planner stub that proposes `sendCall` on the first cycle and then
answers. -/
def plannerOnceW : List Msg → PlannerOut :=
  fun hist => if hist.isEmpty then PlannerOut.propose [sendCall]
              else PlannerOut.final ("done")

/-- An executor stub whose `send_email` call fails at the transport. -/
def execFailW : ToolCall → String :=
  fun _ => "Error executing tool send_email: network down"

/-- A planner stub that proposes `searchCall` on every cycle and never
produces a final answer. -/
def plannerLoopW : List Msg → PlannerOut :=
  fun _ => PlannerOut.propose [searchCall]

/-- An executor stub returning a fixed result text. -/
def execOkW : ToolCall → String := fun _ => "search results"

/-- A startup environment whose Gmail connection fails. -/
def envGmailFailW : ConnectEnv :=
  ⟨true, false, true, true, [], gmailCatalog, searchCatalog⟩

/-- Catalog tools of the spec's two-provider lookup example (§8). -/
def xTool : RawTool := ⟨"x", none, ⟨[], []⟩⟩

/-- Second tool of the first example provider. -/
def yTool : RawTool := ⟨"y", none, ⟨[], []⟩⟩

/-- The single tool of the second example provider. -/
def zTool : RawTool := ⟨"z", none, ⟨[], []⟩⟩

/-- A tool name declared by two providers at once, for the duplicate
aggregation scenario. -/
def dupTool : RawTool := ⟨"shared_tool", none, ⟨[], []⟩⟩

end Echo

namespace Echo

/-! ### Helper lemmas -/

theorem toNat_ofNat_of_valid {n : Nat} (h : n.isValidChar) :
    (Char.ofNat n).toNat = n := by
  rw [Char.ofNat, dif_pos h]
  simp [Char.ofNatAux, Char.toNat, UInt32.toNat]

theorem ws_le_toNat {c : Char} (h : isJsWhitespace c = true) : c.toNat ≤ 32 := by
  unfold isJsWhitespace at h
  simp only [Bool.or_eq_true, decide_eq_true_eq] at h
  rcases h with (((((h|h)|h)|h)|h)|h) <;> subst h <;> decide

theorem ws_toLower (c : Char) :
    isJsWhitespace (Char.toLower c) = isJsWhitespace c := by
  simp only [Char.toLower]
  split
  · rename_i h
    have hv : Nat.isValidChar (c.toNat + 32) := Or.inl (by omega)
    have hn : (Char.ofNat (c.toNat + 32)).toNat = c.toNat + 32 :=
      toNat_ofNat_of_valid hv
    have h1 : isJsWhitespace (Char.ofNat (c.toNat + 32)) = false := by
      by_contra hb
      have h3 := ws_le_toNat (c := Char.ofNat (c.toNat + 32)) (by simpa using hb)
      omega
    have h2 : isJsWhitespace c = false := by
      by_contra hb
      have h3 := ws_le_toNat (by simpa using hb)
      omega
    rw [h1, h2]
  · rfl

theorem trim_lower_comm (s : JStr) : jsTrim (jsToLower s) = jsToLower (jsTrim s) := by
  unfold jsTrim jsToLower
  have h : (isJsWhitespace ∘ Char.toLower) = isJsWhitespace := by
    funext c
    exact ws_toLower c
  rw [List.dropWhile_map, h, ← List.map_reverse, List.dropWhile_map, h,
    ← List.map_reverse]

theorem startChatLoop_exit {q : JStr} (h : isExitCommand q = true)
    (rest : List JStr) : startChatLoop (q :: rest) = ([], true) := by
  simp [startChatLoop, h]

/-! ### C9 -/

/-- Claim C9: exit detection normalizes before comparing — for every input
line the chat loop's sentinel check succeeds exactly when the line, after
trimming surrounding whitespace and lowercasing, equals `quit` or `exit`;
in particular variants such as `" QUIT "` or `"Exit"` also terminate the
session, not only the literal lowercase sentinels. -/
theorem exit_normalization :
    (∀ input : JStr, isExitCommand input =
      (jsToLower (jsTrim input) == "quit".toList ||
        jsToLower (jsTrim input) == "exit".toList)) ∧
    isExitCommand (" QUIT ".toList) = true ∧
    isExitCommand ("Exit".toList) = true ∧
    isExitCommand ("quit".toList) = true ∧
    isExitCommand ("QUIT!".toList) = false ∧
    (∀ rest, startChatLoop (" QUIT ".toList :: rest) = ([], true)) ∧
    (∀ rest, startChatLoop ("Exit".toList :: rest) = ([], true)) := by
  refine ⟨?_, by decide, by decide, by decide, by decide, ?_, ?_⟩
  · intro input
    unfold isExitCommand
    rw [trim_lower_comm]
  · intro rest
    exact startChatLoop_exit (by decide) rest
  · intro rest
    exact startChatLoop_exit (by decide) rest

/-! ### C8 -/

/-- Claim C8: in the interactive loop, a `quit`/`exit` sentinel line
terminates the session (processing nothing further) and the session end
triggers orderly teardown of all provider connections and processes; an
empty line is skipped without starting a turn; any other non-empty line
is processed as a user turn. -/
theorem chat_loop_behavior (q : JStr) (rest : List JStr) :
    (isExitCommand q = true →
      startChatLoop (q :: rest) = ([], true) ∧
      ∀ s, sessionMain (q :: rest) s = ([], true, disconnect s) ∧
        nothingRunning (disconnect s) = true) ∧
    (isExitCommand q = false → jsTrim q = [] →
      startChatLoop (q :: rest) = startChatLoop rest) ∧
    (isExitCommand q = false → jsTrim q ≠ [] →
      startChatLoop (q :: rest) =
        (q :: (startChatLoop rest).1, (startChatLoop rest).2)) := by
  refine ⟨?_, ?_, ?_⟩
  · intro hexit
    constructor
    · simp [startChatLoop, hexit]
    · intro s
      constructor
      · simp [sessionMain, startChatLoop, hexit]
      · simp [disconnect, nothingRunning]
  · intro hexit hempty
    simp [startChatLoop, hexit, hempty]
  · intro hexit hempty
    simp [startChatLoop, hexit, hempty]

/-- Witness for C8 at concrete inputs: `"quit"` terminates and tears
down, `""` is skipped, `"hi"` is processed. -/
theorem chat_loop_behavior_witness :
    (isExitCommand ("quit".toList) = true ∧
      startChatLoop ["quit".toList, "hi".toList] = ([], true) ∧
      sessionMain ["quit".toList, "hi".toList] initialOrchState =
        ([], true, disconnect initialOrchState) ∧
      nothingRunning (disconnect initialOrchState) = true) ∧
    (isExitCommand ("".toList) = false ∧ jsTrim ("".toList) = [] ∧
      startChatLoop ["".toList, "hi".toList] = startChatLoop ["hi".toList]) ∧
    (isExitCommand ("hi".toList) = false ∧ jsTrim ("hi".toList) ≠ [] ∧
      startChatLoop ["hi".toList] =
        ("hi".toList :: (startChatLoop []).1, (startChatLoop []).2)) := by
  refine ⟨⟨by decide, ?_, ?_, ?_⟩, ⟨by decide, by decide, ?_⟩, ⟨by decide, by decide, ?_⟩⟩
  · exact ((chat_loop_behavior ("quit".toList) ["hi".toList]).1 (by decide)).1
  · exact (((chat_loop_behavior ("quit".toList) ["hi".toList]).1 (by decide)).2
      initialOrchState).1
  · exact (((chat_loop_behavior ("quit".toList) ["hi".toList]).1 (by decide)).2
      initialOrchState).2
  · exact (chat_loop_behavior ("".toList) ["hi".toList]).2.1 (by decide) (by decide)
  · exact (chat_loop_behavior ("hi".toList) []).2.2 (by decide) (by decide)

end Echo

namespace Echo

/-! ### Bridge helper lemmas -/

theorem dynamicToolFunc_fst (stringify : CallToolResult → String)
    (parse : String → Option Json) (t : AggregatedTool) (input : String ⊕ Json)
    (clients : Clients) (response : Except String CallToolResult) :
    (dynamicToolFunc stringify parse t input clients response).1 =
      recordCall clients t.source t.name (normalizeInput parse input) := by
  cases response <;> rfl

theorem clientFor_recordCall_ne (clients : Clients) (src : Source) (n : String)
    (args : Json) (src₂ : Source) (h : src₂ ≠ src) :
    clientFor (recordCall clients src n args) src₂ = clientFor clients src₂ := by
  cases src <;> cases src₂ <;> simp_all [recordCall, clientFor]

/-! ### C1 -/

/-- Counterexample to claim C1 as stated: `create_draft` is the
gated-classed tool, the clients start with empty call logs and no
validating tool has executed in the turn (the bridge consults no turn
state at all), yet the invocation is not rejected — the underlying
provider call is dispatched (the Gmail client's call log grows to one
entry) and the provider's success text is returned, with no
`PolicyViolationError`. -/
theorem gated_dispatch_cex :
    toolClassOf ("create_draft") = ToolClass.gated ∧
    (dynamicToolFunc stringifyStub parseStub aggCreateDraftTool
        (Sum.inr draftArgs) emptyClients (Except.ok draftOkResult)).1.gmailClient.calls.length = 1 ∧
    (dynamicToolFunc stringifyStub parseStub aggCreateDraftTool
        (Sum.inr draftArgs) emptyClients (Except.ok draftOkResult)).2 =
      "Draft created successfully with ID: draft-1" := by
  refine ⟨by decide, rfl, rfl⟩

/-- Claim C1 (amended): the code performs no gating — an invocation of a
`gated`-classed tool is dispatched to its source provider unconditionally,
independently of whether any validating tool has executed earlier in the
turn (the bridge takes no turn state); workflow ordering is requested only
through the system prompt text. -/
theorem gated_dispatch_unconditional (stringify : CallToolResult → String)
    (parse : String → Option Json) (t : AggregatedTool) (input : String ⊕ Json)
    (clients : Clients) (response : Except String CallToolResult)
    (_hgated : toolClassOf t.name = ToolClass.gated) :
    (dynamicToolFunc stringify parse t input clients response).1 =
      recordCall clients t.source t.name (normalizeInput parse input) :=
  dynamicToolFunc_fst stringify parse t input clients response

/-- Witness for `gated_dispatch_unconditional` at the `create_draft`
tool. -/
theorem gated_dispatch_unconditional_witness :
    toolClassOf aggCreateDraftTool.name = ToolClass.gated ∧
    (dynamicToolFunc stringifyStub parseStub aggCreateDraftTool
        (Sum.inr Json.null) emptyClients (Except.error ("boom"))).1 =
      recordCall emptyClients Source.gmail ("create_draft")
        (normalizeInput parseStub (Sum.inr Json.null)) :=
  ⟨by decide,
   gated_dispatch_unconditional stringifyStub parseStub aggCreateDraftTool
     (Sum.inr Json.null) emptyClients (Except.error ("boom")) (by decide)⟩

/-! ### C2 -/

/-- Counterexample to claim C2 as stated: with `shared_tool` declared by
both the filesystem and the Gmail provider, building the registry does
not fail — `aggregateTools` has no failure outcome and returns both
entries (the spec-side `build`, by contrast, would report the collision). -/
theorem duplicate_build_cex :
    specBuild [dupTool] [dupTool] [] = Except.error ("shared_tool") ∧
    aggregateTools [dupTool] [dupTool] [] =
      [⟨"shared_tool", none, ⟨[], []⟩, Source.filesystem⟩,
       ⟨"shared_tool", none, ⟨[], []⟩, Source.gmail⟩] ∧
    (aggregateTools [dupTool] [dupTool] []).length = 1 + 1 + 0 := by
  refine ⟨rfl, rfl, rfl⟩

/-- Claim C2 (amended): building the tool registry never fails — it
concatenates the provider catalogs, so for every collection of catalogs
(names disjoint or not) the registry's size equals the sum of the
individual catalog sizes; colliding names are silently retained, with no
`DuplicateToolError`. -/
theorem aggregateTools_length (fsTools gmailTools searchTools : List RawTool) :
    (aggregateTools fsTools gmailTools searchTools).length =
      fsTools.length + gmailTools.length + searchTools.length := by
  simp [aggregateTools, tagTools]
  omega

/-! ### C3 -/

/-- Counterexample to claim C3 as stated: the empty argument object fails
`send_email`'s declared schema (its `to`, `subject`, `body` are
required), yet the invocation is not rejected — it is dispatched to the
Gmail provider and the provider's response text is returned, with no
`SchemaValidationError`. -/
theorem schema_validation_cex :
    schemaAccepts aggSendEmailTool.inputSchema (Json.obj []) = false ∧
    (dynamicToolFunc stringifyStub parseStub aggSendEmailTool
        (Sum.inr (Json.obj [])) emptyClients (Except.ok sendOkResult)).1.gmailClient.calls.length = 1 ∧
    (dynamicToolFunc stringifyStub parseStub aggSendEmailTool
        (Sum.inr (Json.obj [])) emptyClients (Except.ok sendOkResult)).2 =
      "Email sent successfully. Message ID: msg-1" := by
  refine ⟨rfl, rfl, rfl⟩

/-- Claim C3 (amended): arguments are never schema-validated — an
invocation whose arguments fail the tool's declared schema is still
dispatched to the provider, with those arguments unchanged. -/
theorem invalid_args_still_dispatched (stringify : CallToolResult → String)
    (parse : String → Option Json) (t : AggregatedTool) (args : Json)
    (clients : Clients) (response : Except String CallToolResult)
    (_hbad : schemaAccepts t.inputSchema args = false) :
    (dynamicToolFunc stringify parse t (Sum.inr args) clients response).1 =
      recordCall clients t.source t.name args :=
  dynamicToolFunc_fst stringify parse t (Sum.inr args) clients response

/-- Witness for `invalid_args_still_dispatched` at `send_email` with the
empty argument object. -/
theorem invalid_args_still_dispatched_witness :
    schemaAccepts aggSendEmailTool.inputSchema (Json.obj []) = false ∧
    (dynamicToolFunc stringifyStub parseStub aggSendEmailTool
        (Sum.inr (Json.obj [])) emptyClients (Except.error ("refused"))).1 =
      recordCall emptyClients Source.gmail ("send_email") (Json.obj []) :=
  ⟨rfl,
   invalid_args_still_dispatched stringifyStub parseStub aggSendEmailTool
     (Json.obj []) emptyClients (Except.error ("refused")) rfl⟩

/-! ### C10 -/

/-- Claim C10: when the planner-supplied input of a tool invocation
arrives as a string, the bridge dispatches the provider call with the
result of JSON-parsing the string when it parses, and otherwise with the
object `{ query: <the raw string> }`; a non-JSON string is never rejected
and the invocation always proceeds to dispatch. -/
theorem string_input_normalization (stringify : CallToolResult → String)
    (parse : String → Option Json) (t : AggregatedTool) (s : String)
    (clients : Clients) (response : Except String CallToolResult) (j : Json) :
    (parse s = some j → normalizeInput parse (Sum.inl s) = j) ∧
    (parse s = none →
      normalizeInput parse (Sum.inl s) = Json.obj [("query", Json.str s)]) ∧
    (dynamicToolFunc stringify parse t (Sum.inl s) clients response).1 =
      recordCall clients t.source t.name (normalizeInput parse (Sum.inl s)) := by
  refine ⟨?_, ?_, dynamicToolFunc_fst stringify parse t (Sum.inl s) clients response⟩
  · intro hp
    simp [normalizeInput, hp]
  · intro hp
    simp [normalizeInput, hp]

/-- Witness for `string_input_normalization`: the input `"42"` parses and
is dispatched as the parsed value; the input `"plain text"` does not
parse and is dispatched as `{ query: "plain text" }`. -/
theorem string_input_normalization_witness :
    (parseW ("42") = some (Json.num 42) ∧
      normalizeInput parseW (Sum.inl ("42")) = Json.num 42) ∧
    (parseW ("plain text") = none ∧
      normalizeInput parseW (Sum.inl ("plain text")) =
        Json.obj [("query", Json.str ("plain text"))]) ∧
    (dynamicToolFunc stringifyStub parseW aggSendEmailTool
        (Sum.inl ("plain text")) emptyClients (Except.ok sendOkResult)).1 =
      recordCall emptyClients Source.gmail ("send_email")
        (normalizeInput parseW (Sum.inl ("plain text"))) :=
  ⟨⟨rfl,
    (string_input_normalization stringifyStub parseW aggSendEmailTool ("42")
      emptyClients (Except.ok sendOkResult) (Json.num 42)).1 rfl⟩,
   ⟨rfl,
    (string_input_normalization stringifyStub parseW aggSendEmailTool
      ("plain text") emptyClients (Except.ok sendOkResult) Json.null).2.1 rfl⟩,
   (string_input_normalization stringifyStub parseW aggSendEmailTool
      ("plain text") emptyClients (Except.ok sendOkResult) Json.null).2.2⟩

end Echo

namespace Echo

/-! ### Agent loop helper lemmas -/

theorem runAgentLoop_propose (planner : List Msg → PlannerOut)
    (exec : ToolCall → String) (n : Nat) (h : List Msg) (calls : List ToolCall)
    (hp : planner h = PlannerOut.propose calls) :
    runAgentLoop planner exec (n + 1) h =
      ((runAgentLoop planner exec n
          (h ++ [Msg.assistantCalls calls] ++ execCalls exec calls)).1,
        h :: (runAgentLoop planner exec n
          (h ++ [Msg.assistantCalls calls] ++ execCalls exec calls)).2) := by
  conv_lhs => rw [runAgentLoop.eq_def]
  simp only [hp]

theorem runAgentLoop_trace_head (planner : List Msg → PlannerOut)
    (exec : ToolCall → String) (n : Nat) (h : List Msg) :
    ∃ rest, (runAgentLoop planner exec (n + 1) h).2 = h :: rest := by
  cases hp : planner h with
  | final t => exact ⟨[], by simp [runAgentLoop, hp]⟩
  | propose calls =>
    refine ⟨(runAgentLoop planner exec n
      (h ++ [Msg.assistantCalls calls] ++ execCalls exec calls)).2, ?_⟩
    rw [runAgentLoop_propose planner exec n h calls hp]

/-! ### C6 -/

/-- Claim C6: if the planner keeps returning non-empty tool calls and
never produces a final answer, the plan-execute-replan loop stops after
exactly the configured cycle bound with the cycle-limit outcome,
preserving all history appended up to that point (the final history
extends the initial one — no rollback), and never hangs (the loop is a
total function of its fuel). -/
theorem cycle_limit_exceeded (planner : List Msg → PlannerOut)
    (exec : ToolCall → String) (bound : Nat) (h : List Msg)
    (hp : ∀ hist, ∃ calls, calls ≠ [] ∧ planner hist = PlannerOut.propose calls) :
    ∃ tail,
      (runAgentLoop planner exec bound h).1 =
        AgentOutcome.cycleLimitExceeded (h ++ tail) ∧
      (runAgentLoop planner exec bound h).2.length = bound := by
  induction bound generalizing h with
  | zero => exact ⟨[], by simp [runAgentLoop]⟩
  | succ n ih =>
    obtain ⟨calls, -, hcall⟩ := hp h
    obtain ⟨tail, h1, h2⟩ := ih (h ++ [Msg.assistantCalls calls] ++ execCalls exec calls)
    refine ⟨[Msg.assistantCalls calls] ++ execCalls exec calls ++ tail, ?_, ?_⟩
    · simp only [runAgentLoop, hcall]
      rw [show h ++ ([Msg.assistantCalls calls] ++ execCalls exec calls ++ tail) =
        h ++ [Msg.assistantCalls calls] ++ execCalls exec calls ++ tail by
          simp [List.append_assoc]]
      exact h1
    · simp only [runAgentLoop, hcall, List.length_cons]
      rw [h2]

/-- Witness for `cycle_limit_exceeded`: a planner stub that always
proposes the search call makes the loop stop after exactly the configured
`recursionLimit` cycles. -/
theorem cycle_limit_exceeded_witness :
    (∀ hist, ∃ calls, calls ≠ [] ∧ plannerLoopW hist = PlannerOut.propose calls) ∧
    ∃ tail,
      (runAgentLoop plannerLoopW execOkW recursionLimit []).1 =
        AgentOutcome.cycleLimitExceeded ([] ++ tail) ∧
      (runAgentLoop plannerLoopW execOkW recursionLimit []).2.length =
        recursionLimit :=
  ⟨fun hist => ⟨[searchCall], by simp, rfl⟩,
   cycle_limit_exceeded plannerLoopW execOkW recursionLimit []
     (fun hist => ⟨[searchCall], by simp, rfl⟩)⟩

/-! ### C4 -/

/-- Claim C4: a provider call that throws (transport error, timeout) is
captured by the bridge as a failure result string — never propagated as
an unhandled fault — and the turn continues: the loop runs another
planning cycle whose input history contains that failure message. -/
theorem provider_error_captured (stringify : CallToolResult → String)
    (parse : String → Option Json) (t : AggregatedTool) (input : String ⊕ Json)
    (clients : Clients) (m : String) (planner : List Msg → PlannerOut)
    (exec : ToolCall → String) (h : List Msg) (n : Nat) (c : ToolCall)
    (hexec : exec c = "Error executing tool " ++ t.name ++ ": " ++ m)
    (hplan : planner h = PlannerOut.propose [c]) :
    dynamicToolFunc stringify parse t input clients (Except.error m) =
      (recordCall clients t.source t.name (normalizeInput parse input),
       "Error executing tool " ++ t.name ++ ": " ++ m) ∧
    ∃ rest,
      (runAgentLoop planner exec (n + 1 + 1) h).2 =
        h :: (h ++ [Msg.assistantCalls [c], Msg.toolMsg c.name (exec c)]) :: rest ∧
      Msg.toolMsg c.name ("Error executing tool " ++ t.name ++ ": " ++ m) ∈
        h ++ [Msg.assistantCalls [c], Msg.toolMsg c.name (exec c)] := by
  constructor
  · rfl
  · obtain ⟨rest, hrest⟩ := runAgentLoop_trace_head planner exec n
      (h ++ [Msg.assistantCalls [c]] ++ execCalls exec [c])
    refine ⟨rest, ?_, ?_⟩
    · rw [runAgentLoop_propose planner exec (n + 1) h [c] hplan, hrest]
      simp [execCalls, List.append_assoc]
    · rw [hexec]
      simp

/-- Witness for `provider_error_captured`: a concrete `send_email` plan
whose provider call fails at the transport. -/
theorem provider_error_captured_witness :
    (execFailW sendCall =
      "Error executing tool " ++ aggSendEmailTool.name ++ ": " ++ "network down") ∧
    (plannerOnceW [] = PlannerOut.propose [sendCall]) ∧
    (dynamicToolFunc stringifyStub parseStub aggSendEmailTool (Sum.inr Json.null)
        emptyClients (Except.error ("network down")) =
      (recordCall emptyClients Source.gmail ("send_email")
        (normalizeInput parseStub (Sum.inr Json.null)),
       "Error executing tool " ++ aggSendEmailTool.name ++ ": " ++ "network down") ∧
    ∃ rest,
      (runAgentLoop plannerOnceW execFailW (0 + 1 + 1) []).2 =
        [] :: ([] ++ [Msg.assistantCalls [sendCall],
          Msg.toolMsg sendCall.name (execFailW sendCall)]) :: rest ∧
      Msg.toolMsg sendCall.name
          ("Error executing tool " ++ aggSendEmailTool.name ++ ": " ++ "network down") ∈
        [] ++ [Msg.assistantCalls [sendCall],
          Msg.toolMsg sendCall.name (execFailW sendCall)]) :=
  ⟨rfl, rfl,
   provider_error_captured stringifyStub parseStub aggSendEmailTool
     (Sum.inr Json.null) emptyClients ("network down") plannerOnceW execFailW
     [] 0 sendCall rfl rfl⟩

end Echo

namespace Echo

/-! ### C5 -/

/-- Claim C5: startup is all-or-nothing — `connect` succeeds exactly when
every provider connection and the catalog aggregation succeed; on any
failure it runs teardown (`disconnect`) over whatever had started, the
whole startup fails with an error, and nothing is left running
afterwards. -/
theorem startup_all_or_nothing (env : ConnectEnv) (s : OrchState) :
    ((connect env s).2 = none ↔
      (env.fsOk && env.gmailOk && env.searchOk && env.listToolsOk) = true) ∧
    ((connect env s).2 ≠ none → nothingRunning (connect env s).1 = true) := by
  unfold connect
  cases hf : env.fsOk <;> cases hg : env.gmailOk <;> cases hs : env.searchOk <;>
    cases hl : env.listToolsOk <;> simp [disconnect, nothingRunning]

/-- Witness for `startup_all_or_nothing`: the Gmail connection fails, so
startup reports an error and the final state has nothing running. -/
theorem startup_all_or_nothing_witness :
    (connect envGmailFailW initialOrchState).2 ≠ none ∧
    nothingRunning (connect envGmailFailW initialOrchState).1 = true :=
  ⟨by decide,
   (startup_all_or_nothing envGmailFailW initialOrchState).2 (by decide)⟩

/-! ### C7 helper lemmas -/

theorem find_tagTools_pos {ts : List RawTool} {n : String}
    (h : containsName ts n = true) (src : Source) :
    ∃ t, (tagTools ts src).find? (fun t => t.name == n) = some t ∧
      t.name = n ∧ t.source = src := by
  induction ts with
  | nil => simp [containsName] at h
  | cons t rest ih =>
    by_cases hn : t.name = n
    · refine ⟨⟨t.name, t.description, t.inputSchema, src⟩, ?_, hn, rfl⟩
      simp only [tagTools, List.map_cons]
      exact List.find?_cons_of_pos _ (by simp [hn])
    · have hrest : containsName rest n = true := by
        simp [containsName] at h ⊢
        rcases h with h | h
        · exact absurd h hn
        · exact h
      obtain ⟨u, hu, hun, hus⟩ := ih hrest
      refine ⟨u, ?_, hun, hus⟩
      simp only [tagTools, List.map_cons]
      rw [List.find?_cons_of_neg _ (by simp [hn])]
      simpa [tagTools] using hu

theorem find_tagTools_neg {ts : List RawTool} {n : String}
    (h : containsName ts n = false) (src : Source)
    (rest : List AggregatedTool) :
    ((tagTools ts src ++ rest).find? (fun t => t.name == n)) =
      rest.find? (fun t => t.name == n) := by
  induction ts with
  | nil => simp [tagTools]
  | cons t ts₂ ih =>
    simp only [containsName, List.any_cons, Bool.or_eq_false_iff] at h
    simp only [tagTools, List.map_cons, List.cons_append]
    rw [List.find?_cons_of_neg _ (by simp [h.1])]
    exact ih (by simpa [containsName] using h.2)

theorem find_append_left {l₁ l₂ : List AggregatedTool}
    {p : AggregatedTool → Bool} {t : AggregatedTool}
    (h : l₁.find? p = some t) : (l₁ ++ l₂).find? p = some t := by
  induction l₁ with
  | nil => simp at h
  | cons u rest ih =>
    by_cases hp : p u = true
    · rw [List.find?_cons_of_pos _ hp] at h
      rw [List.cons_append, List.find?_cons_of_pos _ hp]
      exact h
    · rw [List.find?_cons_of_neg _ (by simpa using hp)] at h
      rw [List.cons_append, List.find?_cons_of_neg _ (by simpa using hp)]
      exact ih h

/-! ### C7 -/

/-- Claim C7: for a tool name registered by exactly one provider, lookup
over the aggregated catalog resolves only to that provider's entry, and
invoking the tool dispatches the call only on that provider's client —
the call logs of every other client stay unchanged. -/
theorem single_owner_routing (fsTools gmailTools searchTools : List RawTool)
    (n : String)
    (howner :
      ((containsName fsTools n && !containsName gmailTools n && !containsName searchTools n) ||
       (!containsName fsTools n && containsName gmailTools n && !containsName searchTools n) ||
       (!containsName fsTools n && !containsName gmailTools n && containsName searchTools n)) = true) :
    ∃ t, lookupTool (aggregateTools fsTools gmailTools searchTools) n = some t ∧
      t.name = n ∧
      (containsName fsTools n = true → t.source = Source.filesystem) ∧
      (containsName gmailTools n = true → t.source = Source.gmail) ∧
      (containsName searchTools n = true → t.source = Source.search) ∧
      ∀ stringify parse input clients response src₂, src₂ ≠ t.source →
        clientFor (dynamicToolFunc stringify parse t input clients response).1 src₂ =
          clientFor clients src₂ := by
  simp only [Bool.or_eq_true, Bool.and_eq_true, Bool.not_eq_true'] at howner
  have frame : ∀ (t : AggregatedTool),
      ∀ (stringify : CallToolResult → String) (parse : String → Option Json)
        (input : String ⊕ Json) (clients : Clients)
        (response : Except String CallToolResult) (src₂ : Source),
        src₂ ≠ t.source →
        clientFor (dynamicToolFunc stringify parse t input clients response).1 src₂ =
          clientFor clients src₂ := by
    intro t stringify parse input clients response src₂ hne
    rw [dynamicToolFunc_fst]
    exact clientFor_recordCall_ne clients t.source t.name
      (normalizeInput parse input) src₂ hne
  rcases howner with (⟨⟨hf, hg⟩, hs⟩ | ⟨⟨hf, hg⟩, hs⟩) | ⟨⟨hf, hg⟩, hs⟩
  · obtain ⟨t, ht, htn, hts⟩ := find_tagTools_pos hf Source.filesystem
    refine ⟨t, ?_, htn, fun _ => hts, fun hc => absurd hc (by simp [hg]),
      fun hc => absurd hc (by simp [hs]), frame t⟩
    unfold lookupTool aggregateTools
    rw [List.append_assoc]
    exact find_append_left ht
  · obtain ⟨t, ht, htn, hts⟩ := find_tagTools_pos hg Source.gmail
    refine ⟨t, ?_, htn, fun hc => absurd hc (by simp [hf]), fun _ => hts,
      fun hc => absurd hc (by simp [hs]), frame t⟩
    unfold lookupTool aggregateTools
    rw [List.append_assoc, find_tagTools_neg hf Source.filesystem]
    exact find_append_left ht
  · obtain ⟨t, ht, htn, hts⟩ := find_tagTools_pos hs Source.search
    refine ⟨t, ?_, htn, fun hc => absurd hc (by simp [hf]),
      fun hc => absurd hc (by simp [hg]), fun _ => hts, frame t⟩
    unfold lookupTool aggregateTools
    rw [List.append_assoc, find_tagTools_neg hf Source.filesystem,
      find_tagTools_neg hg Source.gmail]
    exact ht

/-- Witness for `single_owner_routing` at the spec's two-provider
example: providers exposing `x`,`y` and `z`; looking up `z` resolves to
the second provider only. -/
theorem single_owner_routing_witness :
    ((containsName [xTool, yTool] ("z") && !containsName [zTool] ("z") && !containsName ([] : List RawTool) ("z")) ||
     (!containsName [xTool, yTool] ("z") && containsName [zTool] ("z") && !containsName ([] : List RawTool) ("z")) ||
     (!containsName [xTool, yTool] ("z") && !containsName [zTool] ("z") && containsName ([] : List RawTool) ("z"))) = true ∧
    ∃ t, lookupTool (aggregateTools [xTool, yTool] [zTool] []) ("z") = some t ∧
      t.name = "z" ∧
      (containsName [xTool, yTool] ("z") = true → t.source = Source.filesystem) ∧
      (containsName [zTool] ("z") = true → t.source = Source.gmail) ∧
      (containsName ([] : List RawTool) ("z") = true → t.source = Source.search) ∧
      ∀ stringify parse input clients response src₂, src₂ ≠ t.source →
        clientFor (dynamicToolFunc stringify parse t input clients response).1 src₂ =
          clientFor clients src₂ :=
  ⟨by decide, single_owner_routing [xTool, yTool] [zTool] [] ("z") (by decide)⟩

end Echo
